import Mathlib

/-!
Shallow embedding of `src/models/tacotron.py`: the Tacotron model's loss
computation, mode selection, decode-loop bounds, attention invariants, and
optimizer wiring.  Tensors are rational-valued nested lists; the learning-rate
schedule and gradient clipping, which involve real powers and square roots,
are modelled over the reals.  Repository modules referenced by the source but
not present under `src/` (`models/helpers.py`, `models/attention.py`,
`models/modules.py`) are modelled from the specification where a claim
depends on them; each such definition is marked in its doc comment.
-/

namespace Tacotron

/-- Rank-3 tensor with shape `[N, T, C]` and rational entries. -/
abbrev Tensor3 : Type := List (List (List ℚ))

/-- Sum of all entries of a rank-3 tensor. -/
def sum3 (t : Tensor3) : ℚ := (t.map (fun m => (m.map List.sum).sum)).sum

/-- Number of entries of a rank-3 tensor. -/
def count3 (t : Tensor3) : ℕ := (t.map (fun m => (m.map List.length).sum)).sum

/-- Mean over all entries of a rank-3 tensor (the semantics of `tf.reduce_mean`). -/
def mean3 (t : Tensor3) : ℚ := sum3 t / (count3 t : ℚ)

/-- Elementwise combination of two rank-3 tensors of equal shape. -/
def zip3 (f : ℚ → ℚ → ℚ) (a b : Tensor3) : Tensor3 :=
  List.zipWith (fun p q => List.zipWith (fun r s => List.zipWith f r s) p q) a b

/-- Entrywise absolute difference, `tf.abs(a - b)` (src line 144). -/
def absDiff3 (a b : Tensor3) : Tensor3 := zip3 (fun x y => |x - y|) a b

/-- The slice `t[:, :, 0:n]` of src line 146: keep the first `n` channels. -/
def slice3 (n : ℕ) (t : Tensor3) : Tensor3 := t.map (fun m => m.map (fun r => r.take n))

/-- Semantics of `tf.losses.mean_squared_error` with default weights and reduction:
the mean over all entries of the squared elementwise difference. -/
def mean_squared_error (labels predictions : Tensor3) : ℚ :=
  mean3 (zip3 (fun x y => (x - y) ^ 2) labels predictions)

/-- The hyperparameters of the model that the embedded code consumes
(`self._hparams` in the source). -/
structure HParams where
  num_mels : ℕ
  outputs_per_step : ℕ
  num_freq : ℕ
  sample_rate : ℕ
  max_iters : ℕ
  symmetric_mels : Bool
  max_abs_value : ℚ
  expand_lstm_units : ℕ
deriving DecidableEq

/-- The bin count `n_priority_freq = int(2000 / (hp.sample_rate * 0.5) * hp.num_freq)`
(src line 145); Python `int` truncation of this nonnegative value is the floor. -/
def n_priority_freq (hp : HParams) : ℕ :=
  ((2000 : ℚ) / ((hp.sample_rate : ℚ) * (1 / 2)) * (hp.num_freq : ℚ)).floor.toNat

/-- A trainable variable of the graph: its scoped name and its flattened entries. -/
structure TrainVar where
  name : String
  data : List ℚ

/-- Semantics of `tf.nn.l2_loss`: half the sum of squared entries. -/
def l2_loss (v : TrainVar) : ℚ := (v.data.map (fun x => x ^ 2)).sum / 2

/-- Whether the pattern matches at the start of the text. -/
def matchesAt : List Char → List Char → Bool
  | [], _ => true
  | _ :: _, [] => false
  | p :: ps, c :: cs => (p == c) && matchesAt ps cs

/-- Whether the pattern occurs somewhere inside the text — the semantics of
Python's `in` operator on strings. -/
def containsPat (pat : List Char) : List Char → Bool
  | [] => matchesAt pat []
  | c :: cs => matchesAt pat (c :: cs) || containsPat pat cs

/-- The lowercase marker of the bias filter at src line 155. -/
def bias_marker : List Char := "bias".data

/-- The capitalized marker of the bias filter at src line 155. -/
def bias_marker_cap : List Char := "Bias".data

/-- The bias test of src line 155: `'bias' in v.name or 'Bias' in v.name`. -/
def isBiasVar (v : TrainVar) : Bool :=
  containsPat bias_marker v.name.data || containsPat bias_marker_cap v.name.data

/-- The `reg_weight_scaler` of src line 149:
`1 / (2 * max_abs_value)` when `symmetric_mels` else `1 / max_abs_value`. -/
def reg_weight_scaler (symmetric_mels : Bool) (max_abs_value : ℚ) : ℚ :=
  if symmetric_mels then 1 / (2 * max_abs_value) else 1 / max_abs_value

/-- The `reg_weight = 1e-6 * reg_weight_scaler` of src line 150. -/
def reg_weight (hp : HParams) : ℚ :=
  (1 / 1000000) * reg_weight_scaler hp.symmetric_mels hp.max_abs_value

/-- The tensor-valued fields that the graph-building call stores on the model and
that `add_loss` reads (src lines 115-122). -/
structure ModelTensors where
  mel_targets : Tensor3
  linear_targets : Tensor3
  decoder_outputs : Tensor3
  mel_outputs : Tensor3
  linear_outputs : Tensor3

/-- The scalar fields set by `add_loss` (src lines 133-157). -/
structure LossFields where
  decoder_loss : ℚ
  mel_loss : ℚ
  linear_loss : ℚ
  regularization_loss : ℚ
  loss : ℚ

/-- Translation of `Tacotron.add_loss` (src lines 133-157), line by line:
MSE of the mel targets against the raw decoder output and against the
postnet-refined output; the priority-frequency linear loss; the scaled
`l2_loss` sum over non-bias trainable variables; and their total. -/
def add_loss (hp : HParams) (trainable_variables : List TrainVar) (m : ModelTensors) :
    LossFields :=
  let decoder_loss := mean_squared_error m.mel_targets m.decoder_outputs
  let mel_loss := mean_squared_error m.mel_targets m.mel_outputs
  let l1 := absDiff3 m.linear_targets m.linear_outputs
  let linear_loss := (1 / 2) * mean3 l1 + (1 / 2) * mean3 (slice3 (n_priority_freq hp) l1)
  let regularization_loss :=
    ((trainable_variables.filter (fun v => !(isBiasVar v))).map l2_loss).sum * reg_weight hp
  ⟨decoder_loss, mel_loss, linear_loss, regularization_loss,
    decoder_loss + mel_loss + linear_loss + regularization_loss⟩

/-- The mode flag of src line 35: `is_training = linear_targets is not None`. -/
def is_training {α : Type} (linear_targets : Option α) : Bool := linear_targets.isSome

/-- The two decoding helper strategies selected at src lines 78-81. -/
inductive HelperKind : Type
  | trainingHelper : HelperKind
  | testHelper : HelperKind
deriving DecidableEq

/-- The helper selection of src lines 78-81: the teacher-forcing helper when
`is_training`, the autoregressive test helper otherwise. -/
def helper_choice {α β : Type} (mel_targets : Option α) (linear_targets : Option β) :
    HelperKind :=
  if is_training linear_targets then HelperKind.trainingHelper else HelperKind.testHelper

/-- The mode wiring of the graph-building call: the `is_training` flag passed to the
encoder (src line 53), the postnet (line 97) and the expand stage (line 108), and the
helper chosen at lines 78-81. -/
structure ModeWiring where
  encoder_is_training : Bool
  postnet_is_training : Bool
  expand_is_training : Bool
  helper : HelperKind
deriving DecidableEq

/-- How the graph-building call derives its mode from the two optional target
arguments (src lines 35, 53, 78-81, 97, 108). -/
def mode_wiring {α β : Type} (mel_targets : Option α) (linear_targets : Option β) :
    ModeWiring :=
  ⟨is_training linear_targets, is_training linear_targets, is_training linear_targets,
    helper_choice mel_targets linear_targets⟩

/-- The claim's reading, for refinement comparison: training happens exactly when the
targets — both optional target arguments — are supplied. -/
def spec_targets_supplied {α β : Type} (mel_targets : Option α) (linear_targets : Option β) :
    Bool :=
  mel_targets.isSome && linear_targets.isSome

/-- Concrete trainable variable whose name carries the bias marker, for witnesses. -/
def biasVarExample : TrainVar := ⟨"decoder_lstm_bias", [3]⟩

/-- Empty model-tensor record, for witnesses. -/
def emptyTensors : ModelTensors := ⟨[], [], [], [], []⟩

/-- C1: after graph construction with targets and `add_loss`, the `linear_loss` field
equals 0.5 times the mean over all entries of the absolute difference between the
linear targets and the linear outputs, plus 0.5 times the same mean restricted to the
first `n_priority_freq = int(2000 / (sample_rate * 0.5) * num_freq)` frequency bins. -/
theorem linear_loss_spec (hp : HParams) (vars : List TrainVar) (m : ModelTensors) :
    (add_loss hp vars m).linear_loss
      = (1 / 2) * mean3 (absDiff3 m.linear_targets m.linear_outputs)
        + (1 / 2) * mean3 (slice3
            (((2000 : ℚ) / ((hp.sample_rate : ℚ) * (1 / 2)) * (hp.num_freq : ℚ)).floor.toNat)
            (absDiff3 m.linear_targets m.linear_outputs)) := rfl

/-- C2 counterexample: in a call with `mel_targets` absent and `linear_targets`
present, the targets are not (all) supplied, yet the model builds in training mode —
teacher-forcing helper and training-mode encoder/postnet/expand — because the mode is
decided by `linear_targets` alone (src line 35). -/
theorem mode_toggle_counterexample :
    spec_targets_supplied (none : Option Unit) (some ()) = false
    ∧ (mode_wiring (none : Option Unit) (some ())).helper = HelperKind.trainingHelper
    ∧ (mode_wiring (none : Option Unit) (some ())).encoder_is_training = true :=
  ⟨rfl, rfl, rfl⟩

/-- C2 (amended): for every call, the presence of `linear_targets` alone toggles
training vs. inference behaviour — the helper and every `is_training` flag follow
`linear_targets.isSome`, and `mel_targets` is not consulted for the mode. -/
theorem mode_toggle_spec (α β : Type) (mel_targets : Option α) (linear_targets : Option β) :
    (mode_wiring mel_targets linear_targets).helper
        = (if linear_targets.isSome then HelperKind.trainingHelper else HelperKind.testHelper)
    ∧ (mode_wiring mel_targets linear_targets).encoder_is_training = linear_targets.isSome
    ∧ (mode_wiring mel_targets linear_targets).postnet_is_training = linear_targets.isSome
    ∧ (mode_wiring mel_targets linear_targets).expand_is_training = linear_targets.isSome := by
  cases linear_targets <;>
    simp [mode_wiring, helper_choice, is_training]

/-- C3: the `regularization_loss` field is the sum of `l2_loss` over exactly the
trainable variables whose name does not mark them as a bias term, scaled by
`reg_weight`; adding a bias-named variable leaves it unchanged; and the coefficient
under `symmetric_mels = true` is exactly half the coefficient under
`symmetric_mels = false` for identical parameters. -/
theorem regularization_loss_spec (hp : HParams) (vars : List TrainVar) (m : ModelTensors)
    (v : TrainVar) (M : ℚ) (hv : isBiasVar v = true) :
    (add_loss hp vars m).regularization_loss
        = ((vars.filter (fun w => !(isBiasVar w))).map l2_loss).sum * reg_weight hp
    ∧ (add_loss hp (v :: vars) m).regularization_loss
        = (add_loss hp vars m).regularization_loss
    ∧ reg_weight_scaler true M = (1 / 2) * reg_weight_scaler false M := by
  refine ⟨rfl, ?_, ?_⟩
  · simp [add_loss, List.filter_cons, hv]
  · show (1 : ℚ) / (2 * M) = (1 / 2) * (1 / M)
    rw [div_mul_div_comm, one_mul]

/-- Witness for C3 at a concrete bias-named variable and concrete inputs. -/
theorem regularization_loss_spec_witness :
    (add_loss ⟨80, 2, 513, 20000, 200, true, 4, 256⟩ [] emptyTensors).regularization_loss
        = ((([] : List TrainVar).filter (fun w => !(isBiasVar w))).map l2_loss).sum
            * reg_weight ⟨80, 2, 513, 20000, 200, true, 4, 256⟩
    ∧ (add_loss ⟨80, 2, 513, 20000, 200, true, 4, 256⟩ [biasVarExample]
          emptyTensors).regularization_loss
        = (add_loss ⟨80, 2, 513, 20000, 200, true, 4, 256⟩ [] emptyTensors).regularization_loss
    ∧ reg_weight_scaler true 4 = (1 / 2) * reg_weight_scaler false 4 :=
  regularization_loss_spec ⟨80, 2, 513, 20000, 200, true, 4, 256⟩ [] emptyTensors
    biasVarExample 4 (by decide)

/-- C9: after `add_loss`, the `loss` field equals exactly
`decoder_loss + mel_loss + linear_loss + regularization_loss`, where `decoder_loss` is
the mean squared error between the mel targets and the raw (pre-postnet) decoder
output and `mel_loss` is the mean squared error between the mel targets and the
postnet-refined mel output. -/
theorem total_loss_spec (hp : HParams) (vars : List TrainVar) (m : ModelTensors) :
    (add_loss hp vars m).loss
        = (add_loss hp vars m).decoder_loss + (add_loss hp vars m).mel_loss
          + (add_loss hp vars m).linear_loss + (add_loss hp vars m).regularization_loss
    ∧ (add_loss hp vars m).decoder_loss = mean_squared_error m.mel_targets m.decoder_outputs
    ∧ (add_loss hp vars m).mel_loss = mean_squared_error m.mel_targets m.mel_outputs :=
  ⟨rfl, rfl, rfl⟩

/-- Modelled from the spec: the autoregressive inference decode loop — the
`dynamic_decode` call of src lines 84-86 driving `TacoTestHelper` from
`models/helpers.py`, which is not under `src/`.  At each step the decoder cell emits
one output (covering `outputs_per_step` mel frames), the helper's stopping test
decides completion, and `maximum_iterations = max_iters` bounds the number of steps,
whichever comes first.  Returns the list of per-step outputs. -/
def dynamic_decode_test {σ : Type} (step : σ → σ × List ℚ) (stop : List ℚ → Bool) :
    ℕ → σ → List (List ℚ)
  | 0, _ => []
  | fuel + 1, s =>
    let out := step s
    if stop out.2 then [out.2]
    else out.2 :: dynamic_decode_test step stop fuel out.1

/-- The mel time dimension after the reshape of src line 89: each decode step
contributes `outputs_per_step` frames. -/
def mel_time_dim (decoded : List (List ℚ)) (outputs_per_step : ℕ) : ℕ :=
  decoded.length * outputs_per_step

/-- The inference decode loop executes at most as many steps as its fuel. -/
theorem dynamic_decode_test_length_le {σ : Type} (step : σ → σ × List ℚ)
    (stop : List ℚ → Bool) :
    ∀ (fuel : ℕ) (s : σ), (dynamic_decode_test step stop fuel s).length ≤ fuel := by
  intro fuel
  induction fuel with
  | zero => intro s; simp [dynamic_decode_test]
  | succ n ih =>
    intro s
    simp only [dynamic_decode_test]
    by_cases h : stop (step s).2 = true
    · simp [h]
    · simp only [h, if_false, List.length_cons, Bool.false_eq_true]
      exact Nat.succ_le_succ (ih (step s).1)

/-- C4: for every configuration, decoding without targets runs the loop for at most
`max_iters` steps, each emitting `outputs_per_step` mel frames, so the mel time
dimension is at most `max_iters * outputs_per_step`. -/
theorem inference_time_bound {σ : Type} (step : σ → σ × List ℚ) (stop : List ℚ → Bool)
    (hp : HParams) (s : σ) :
    mel_time_dim (dynamic_decode_test step stop hp.max_iters s) hp.outputs_per_step
      ≤ hp.max_iters * hp.outputs_per_step :=
  Nat.mul_le_mul_right _ (dynamic_decode_test_length_le step stop hp.max_iters s)

/-- Modelled from the spec: `TacoTrainingHelper` (`models/helpers.py`, not under
`src/`): the teacher-forced loop runs for a step count derived from the target length
divided by `outputs_per_step`, covering the whole target — `⌈T_target / r⌉` steps. -/
def training_helper_steps (T_target r : ℕ) : ℕ := (T_target + r - 1) / r

/-- The `dynamic_decode` call of src lines 84-86 passes
`maximum_iterations = max_iters` in training mode too, so the executed step count is
the helper's step count capped at `max_iters`. -/
def training_decode_steps (hp : HParams) (T_target : ℕ) : ℕ :=
  min (training_helper_steps T_target hp.outputs_per_step) hp.max_iters

/-- Shape `[N, T, C]` of a rank-3 tensor. -/
structure Shape3 where
  batch : ℕ
  time : ℕ
  channels : ℕ
deriving DecidableEq

/-- Modelled from the spec: the shape behaviour of `conv_and_lstm`
(`models/modules.py`, not under `src/`): the convolution layers preserve the sequence
length (same padding), and the bidirectional recurrent stack emits `2 * lstm_units`
channels per step. -/
def conv_and_lstm_shape (s : Shape3) (lstm_units : ℕ) : Shape3 :=
  ⟨s.batch, s.time, 2 * lstm_units⟩

/-- Modelled from the spec: the shape behaviour of `postnet` (`models/modules.py`,
not under `src/`): same padding preserves the time dimension and the final layer
projects to a `num_mels`-wide residual, which src line 98 adds elementwise. -/
def postnet_shape (s : Shape3) (num_mels : ℕ) : Shape3 := ⟨s.batch, s.time, num_mels⟩

/-- Shape behaviour of `tf.layers.dense` (src line 110): the channel dimension
becomes `units`. -/
def dense_shape (s : Shape3) (units : ℕ) : Shape3 := ⟨s.batch, s.time, units⟩

/-- The mel and linear output shapes produced by the training-mode graph build: the
decoder emits `training_decode_steps` outputs of width `num_mels * outputs_per_step`
(src lines 84-86), the reshape of line 89 yields one mel frame per entry, the postnet
residual is added at line 98, and the expand stage plus the dense projection give the
linear output (lines 101-110). -/
def training_output_shapes (hp : HParams) (N T_target : ℕ) : Shape3 × Shape3 :=
  let steps := training_decode_steps hp T_target
  let decoder_outputs : Shape3 := ⟨N, steps * hp.outputs_per_step, hp.num_mels⟩
  let mel_outputs := postnet_shape decoder_outputs hp.num_mels
  let expand_outputs := conv_and_lstm_shape mel_outputs hp.expand_lstm_units
  let linear_outputs := dense_shape expand_outputs hp.num_freq
  (mel_outputs, linear_outputs)

/-- The claim's reading, for refinement comparison: the target length rounded up to a
multiple of `outputs_per_step`. -/
def round_up_to_multiple (T r : ℕ) : ℕ := ((T + r - 1) / r) * r

/-- C5 counterexample: with `outputs_per_step = 2` and `max_iters = 1`, a target of
length 4 yields a mel time dimension of 2 — the `maximum_iterations` cap of src line
86 applies to the training decode as well — while the target length rounded up to a
multiple of `outputs_per_step` is 4. -/
theorem training_shape_counterexample :
    (training_output_shapes ⟨80, 2, 513, 20000, 1, true, 4, 256⟩ 2 4).1.time = 2
    ∧ round_up_to_multiple 4 2 = 4
    ∧ (2 : ℕ) ≠ 4 := by
  refine ⟨rfl, rfl, ?_⟩
  decide

/-- C5 (amended): with targets supplied, `mel_outputs` has shape
`[N, T_out, num_mels]` and `linear_outputs` has shape `[N, T_out, num_freq]`, where
`T_out = min(⌈T_target / outputs_per_step⌉, max_iters) * outputs_per_step`; whenever
the helper's step count fits within `max_iters`, `T_out` is exactly the target length
rounded up to a multiple of `outputs_per_step`. -/
theorem training_shapes_spec (hp : HParams) (N T_target : ℕ)
    (h : training_helper_steps T_target hp.outputs_per_step ≤ hp.max_iters) :
    (training_output_shapes hp N T_target).1
        = ⟨N, round_up_to_multiple T_target hp.outputs_per_step, hp.num_mels⟩
    ∧ (training_output_shapes hp N T_target).2
        = ⟨N, round_up_to_multiple T_target hp.outputs_per_step, hp.num_freq⟩ := by
  have hsteps : training_decode_steps hp T_target
      = training_helper_steps T_target hp.outputs_per_step := min_eq_left h
  constructor <;>
    simp [training_output_shapes, postnet_shape, conv_and_lstm_shape, dense_shape,
      hsteps, round_up_to_multiple, training_helper_steps]

/-- Witness for C5 at a concrete configuration: batch 2, target length 5, two frames
per step, so the time dimension is 6. -/
theorem training_shapes_spec_witness :
    (training_output_shapes ⟨80, 2, 513, 20000, 200, true, 4, 256⟩ 2 5).1
        = ⟨2, round_up_to_multiple 5 2, 80⟩
    ∧ (training_output_shapes ⟨80, 2, 513, 20000, 200, true, 4, 256⟩ 2 5).2
        = ⟨2, round_up_to_multiple 5 2, 513⟩ :=
  training_shapes_spec ⟨80, 2, 513, 20000, 200, true, 4, 256⟩ 2 5 (by decide)

/-- Elementwise sum of two alignment vectors. -/
def addV (x y : List ℚ) : List ℚ := List.zipWith (fun a b => a + b) x y

/-- Modelled from the spec: the softmax normalization inside
`LocationSensitiveAttention` (`models/attention.py`, not under `src/`): the
unnormalized energies are exponentiated and divided by their total.  The
exponential is kept abstract as a map `expf`, strictly positive in every use —
the real exponential is transcendental and has no rational counterpart. -/
def softmax_with (expf : ℚ → ℚ) (energies : List ℚ) : List ℚ :=
  let w := energies.map expf
  w.map (fun x => x / w.sum)

/-- Modelled from the spec: the attention recursion of
`LocationSensitiveAttention` (`models/attention.py`, not under `src/`): the
cumulative alignment starts at zero over the `T_in` encoder positions; at step `t`
the alignment is the softmax of the energies — which may depend on the step and on
the cumulative alignment (location sensitivity) — and is appended to the history and
added elementwise into the cumulative alignment.  Returns the cumulative alignment
after `t` steps and the history of the first `t` alignments. -/
def attention_run (expf : ℚ → ℚ) (energy : ℕ → List ℚ → List ℚ) (T_in : ℕ) :
    ℕ → List ℚ × List (List ℚ)
  | 0 => (List.replicate T_in 0, [])
  | t + 1 =>
    let prev := attention_run expf energy T_in t
    let a := softmax_with expf (energy t prev.1)
    (addV prev.1 a, prev.2 ++ [a])

/-- Elementwise sum of a list of alignment vectors over `T_in` positions. -/
def sumV (T_in : ℕ) (l : List (List ℚ)) : List ℚ := l.foldl addV (List.replicate T_in 0)

/-- Dividing every element of a list by a constant divides the sum. -/
theorem sum_map_div (l : List ℚ) (s : ℚ) : (l.map (fun x => x / s)).sum = l.sum / s := by
  induction l with
  | nil => simp
  | cons a t ih => simp [ih, add_div]

/-- The softmax of a nonempty energy list under a strictly positive exponential sums
to exactly 1. -/
theorem softmax_with_sum (expf : ℚ → ℚ) (energies : List ℚ)
    (hpos : ∀ x, 0 < expf x) (hne : energies ≠ []) :
    (softmax_with expf energies).sum = 1 := by
  have hw : (energies.map expf) ≠ [] := by
    simpa [List.map_eq_nil_iff] using hne
  have hwpos : 0 < (energies.map expf).sum := by
    refine List.sum_pos _ ?_ hw
    intro x hx
    rcases List.mem_map.mp hx with ⟨e, _, rfl⟩
    exact hpos e
  simp only [softmax_with, sum_map_div]
  exact div_self (ne_of_gt hwpos)

/-- The cumulative alignment satisfies the fold recurrence over the history. -/
theorem attention_run_cumulative (expf : ℚ → ℚ) (energy : ℕ → List ℚ → List ℚ)
    (T_in : ℕ) : ∀ t : ℕ,
    (attention_run expf energy T_in t).1 = sumV T_in (attention_run expf energy T_in t).2 := by
  intro t
  induction t with
  | zero => simp [attention_run, sumV]
  | succ n ih =>
    simp only [attention_run, sumV, List.foldl_append, List.foldl_cons, List.foldl_nil]
    rw [← sumV, ← ih]

/-- Every alignment in the history has the length of its energy list. -/
theorem attention_run_mem_sum (expf : ℚ → ℚ) (energy : ℕ → List ℚ → List ℚ)
    (T_in : ℕ) (hpos : ∀ x, 0 < expf x) (hne : ∀ i c, energy i c ≠ []) :
    ∀ (t : ℕ) (a : List ℚ), a ∈ (attention_run expf energy T_in t).2 → a.sum = 1 := by
  intro t
  induction t with
  | zero => intro a ha; simp [attention_run] at ha
  | succ n ih =>
    intro a ha
    simp only [attention_run, List.mem_append, List.mem_singleton] at ha
    rcases ha with h | h
    · exact ih a h
    · subst h
      exact softmax_with_sum expf _ hpos (hne _ _)

/-- C6: provided the abstract exponential is strictly positive and every energy list
is nonempty (there is at least one encoder position), every alignment the attention
produces is a probability distribution over the encoder positions — its entries sum
to exactly 1 — and the cumulative alignment carried into step `t + 1` equals the
elementwise sum of the per-step alignments at steps `0 .. t`. -/
theorem attention_alignments_spec (expf : ℚ → ℚ) (energy : ℕ → List ℚ → List ℚ)
    (T_in t : ℕ) (a : List ℚ)
    (hpos : ∀ x, 0 < expf x) (hne : ∀ i c, energy i c ≠ [])
    (ha : a ∈ (attention_run expf energy T_in t).2) :
    a.sum = 1
    ∧ (attention_run expf energy T_in (t + 1)).1
        = sumV T_in (attention_run expf energy T_in (t + 1)).2 :=
  ⟨attention_run_mem_sum expf energy T_in hpos hne t a ha,
    attention_run_cumulative expf energy T_in (t + 1)⟩

/-- Witness for C6 with a constant positive exponential, two encoder positions and
two decode steps; the first recorded alignment is the uniform distribution. -/
theorem attention_alignments_spec_witness :
    List.sum [(1 : ℚ) / 2, 1 / 2] = 1
    ∧ (attention_run (fun _ => 1) (fun _ _ => [0, 0]) 2 (1 + 1)).1
        = sumV 2 (attention_run (fun _ => 1) (fun _ _ => [0, 0]) 2 (1 + 1)).2 :=
  attention_alignments_spec (fun _ => 1) (fun _ _ => [0, 0]) 2 1 [(1 : ℚ) / 2, 1 / 2]
    (fun _ => one_pos) (fun _ _ => by simp) (by norm_num [attention_run, softmax_with])

/-- Semantics of `tf.train.exponential_decay` with `staircase = False` as called at
src lines 168-169: `initial * decay_rate ^ (global_step / decay_steps)` with a
real-valued exponent. -/
noncomputable def exponential_decay (initial : ℝ) (global_step decay_steps : ℕ)
    (decay_rate : ℝ) : ℝ :=
  initial * decay_rate ^ ((global_step : ℝ) / (decay_steps : ℝ))

/-- The `learning_rate` field set by `add_optimizer` (src lines 168-169): exponential
decay from `initial_learning_rate` with decay rate `0.5` every
`learning_rate_decay_halflife` steps. -/
noncomputable def learning_rate (initial_learning_rate : ℝ)
    (learning_rate_decay_halflife global_step : ℕ) : ℝ :=
  exponential_decay initial_learning_rate global_step learning_rate_decay_halflife (1 / 2)

/-- C7: after `add_optimizer`, the learning rate equals
`initial_learning_rate * 0.5 ^ (global_step / learning_rate_decay_halflife)`; it
starts at the initial value, is halved after every `learning_rate_decay_halflife`
further steps, and is monotonically non-increasing in the global step. -/
theorem learning_rate_spec (lr0 : ℝ) (hl g g₁ g₂ : ℕ)
    (hpos : 0 ≤ lr0) (hhl : 0 < hl) (hle : g₁ ≤ g₂) :
    learning_rate lr0 hl g = lr0 * (1 / 2 : ℝ) ^ ((g : ℝ) / (hl : ℝ))
    ∧ learning_rate lr0 hl 0 = lr0
    ∧ learning_rate lr0 hl (g + hl) = learning_rate lr0 hl g * (1 / 2)
    ∧ learning_rate lr0 hl g₂ ≤ learning_rate lr0 hl g₁ := by
  have hhlR : (0 : ℝ) < (hl : ℝ) := Nat.cast_pos.mpr hhl
  have hne : (hl : ℝ) ≠ 0 := ne_of_gt hhlR
  have hhalf : (0 : ℝ) < 1 / 2 := by norm_num
  refine ⟨rfl, ?_, ?_, ?_⟩
  · simp [learning_rate, exponential_decay]
  · have hcast : ((g + hl : ℕ) : ℝ) / (hl : ℝ) = (g : ℝ) / (hl : ℝ) + 1 := by
      push_cast
      rw [add_div, div_self hne]
    simp only [learning_rate, exponential_decay, hcast]
    rw [Real.rpow_add hhalf, Real.rpow_one]
    ring
  · have hcast : (g₁ : ℝ) ≤ (g₂ : ℝ) := Nat.cast_le.mpr hle
    have hdiv : (g₁ : ℝ) / (hl : ℝ) ≤ (g₂ : ℝ) / (hl : ℝ) := by gcongr
    have hpow : (1 / 2 : ℝ) ^ ((g₂ : ℝ) / (hl : ℝ)) ≤ (1 / 2 : ℝ) ^ ((g₁ : ℝ) / (hl : ℝ)) :=
      Real.rpow_le_rpow_of_exponent_ge hhalf (by norm_num) hdiv
    exact mul_le_mul_of_nonneg_left hpow hpos

/-- Witness for C7 at a concrete schedule: initial rate 1, halflife 2. -/
theorem learning_rate_spec_witness :
    learning_rate 1 2 3 = 1 * (1 / 2 : ℝ) ^ (((3 : ℕ) : ℝ) / ((2 : ℕ) : ℝ))
    ∧ learning_rate 1 2 0 = 1
    ∧ learning_rate 1 2 (3 + 2) = learning_rate 1 2 3 * (1 / 2)
    ∧ learning_rate 1 2 5 ≤ learning_rate 1 2 1 :=
  learning_rate_spec 1 2 3 1 5 (by norm_num) (by norm_num) (by norm_num)

/-- Squared global norm of a set of gradient tensors: the sum over all tensors of the
sum of squared entries. -/
def global_norm_sq (grads : List (List ℝ)) : ℝ :=
  (grads.map (fun g => (g.map (fun x => x ^ 2)).sum)).sum

/-- Semantics of `tf.global_norm`: the square root of the sum of squares over all
tensors in the set. -/
noncomputable def global_norm (grads : List (List ℝ)) : ℝ :=
  Real.sqrt (global_norm_sq grads)

/-- Semantics of `tf.clip_by_global_norm(gradients, clip_norm)` as called at src line
173 (per its documented behaviour): every entry of every tensor is scaled by
`clip_norm / max(global_norm, clip_norm)`. -/
noncomputable def clip_by_global_norm (clip_norm : ℝ) (grads : List (List ℝ)) :
    List (List ℝ) :=
  grads.map (fun g => g.map (fun x => x * (clip_norm / max (global_norm grads) clip_norm)))

/-- The squared global norm is nonnegative. -/
theorem global_norm_sq_nonneg (grads : List (List ℝ)) : 0 ≤ global_norm_sq grads := by
  apply List.sum_nonneg
  intro x hx
  rcases List.mem_map.mp hx with ⟨g, _, rfl⟩
  apply List.sum_nonneg
  intro y hy
  rcases List.mem_map.mp hy with ⟨z, _, rfl⟩
  exact sq_nonneg z

/-- Scaling one tensor scales its sum of squares by the square of the factor. -/
theorem sum_sq_scale (g : List ℝ) (c : ℝ) :
    ((g.map (fun x => x * c)).map (fun x => x ^ 2)).sum
      = (g.map (fun x => x ^ 2)).sum * c ^ 2 := by
  induction g with
  | nil => simp
  | cons a t ih => simp only [List.map_cons, List.sum_cons, ih]; ring

/-- Scaling every tensor scales the squared global norm by the square of the factor. -/
theorem global_norm_sq_scale :
    ∀ (grads : List (List ℝ)) (c : ℝ),
      global_norm_sq (grads.map (fun g => g.map (fun x => x * c)))
        = global_norm_sq grads * c ^ 2
  | [], c => by simp [global_norm_sq]
  | g :: t, c => by
    have ih := global_norm_sq_scale t c
    simp only [global_norm_sq, List.map_cons, List.sum_cons] at ih ⊢
    rw [ih, sum_sq_scale]
    ring

/-- Scaling every tensor by a nonnegative factor scales the global norm by it. -/
theorem global_norm_scale (grads : List (List ℝ)) (c : ℝ) (hc : 0 ≤ c) :
    global_norm (grads.map (fun g => g.map (fun x => x * c)))
      = global_norm grads * c := by
  unfold global_norm
  rw [global_norm_sq_scale, Real.sqrt_mul (global_norm_sq_nonneg grads), Real.sqrt_sq hc]

/-- The clipping denominator is at least the clip norm of 1, hence positive. -/
theorem clip_denom_pos (grads : List (List ℝ)) : (0 : ℝ) < max (global_norm grads) 1 :=
  lt_of_lt_of_le one_pos (le_max_right _ _)

/-- The global norm of the clipped set is the original norm divided by
`max(global_norm, 1)`. -/
theorem global_norm_clip (grads : List (List ℝ)) :
    global_norm (clip_by_global_norm 1 grads)
      = global_norm grads * (1 / max (global_norm grads) 1) := by
  unfold clip_by_global_norm
  exact global_norm_scale grads _ (le_of_lt (div_pos one_pos (clip_denom_pos grads)))

/-- After clipping with threshold 1, the global norm never exceeds 1. -/
theorem clip_norm_le_one (grads : List (List ℝ)) :
    global_norm (clip_by_global_norm 1 grads) ≤ 1 := by
  rw [global_norm_clip, mul_one_div]
  exact (div_le_one (clip_denom_pos grads)).mpr (le_max_left _ _)

/-- Gradients already within the threshold are returned unchanged. -/
theorem clip_id_of_le (grads : List (List ℝ)) (h : global_norm grads ≤ 1) :
    clip_by_global_norm 1 grads = grads := by
  unfold clip_by_global_norm
  rw [max_eq_right h]
  simp

/-- Gradients whose global norm exceeds the threshold are rescaled to norm exactly 1. -/
theorem clip_norm_eq_one (grads : List (List ℝ)) (h : 1 < global_norm grads) :
    global_norm (clip_by_global_norm 1 grads) = 1 := by
  rw [global_norm_clip, max_eq_left (le_of_lt h), mul_one_div,
    div_self (ne_of_gt (lt_trans one_pos h))]

/-- C8: the gradients applied by `add_optimizer` have global norm at most 1:
a set already within the threshold is applied unchanged, and a set whose global norm
exceeds 1 is rescaled so the applied set has global norm exactly 1. -/
theorem clip_by_global_norm_spec (grads : List (List ℝ)) :
    global_norm (clip_by_global_norm 1 grads) ≤ 1
    ∧ (global_norm grads ≤ 1 → clip_by_global_norm 1 grads = grads)
    ∧ (1 < global_norm grads → global_norm (clip_by_global_norm 1 grads) = 1) :=
  ⟨clip_norm_le_one grads, clip_id_of_le grads, clip_norm_eq_one grads⟩

/-- Witness for C8 at the concrete gradient set `[[3, 4]]`, whose global norm is 5. -/
theorem clip_by_global_norm_spec_witness :
    global_norm (clip_by_global_norm 1 [[(3 : ℝ), 4]]) = 1 :=
  (clip_by_global_norm_spec [[(3 : ℝ), 4]]).2.2 (by
    have h : global_norm_sq [[(3 : ℝ), 4]] = 25 := by norm_num [global_norm_sq]
    have h5 : global_norm [[(3 : ℝ), 4]] = 5 := by
      rw [global_norm, h, show (25 : ℝ) = 5 ^ 2 by norm_num,
        Real.sqrt_sq (by norm_num : (0 : ℝ) ≤ 5)]
    rw [h5]
    norm_num)

/-- The gradient-related fields set by `add_optimizer` (src lines 171-179). -/
structure OptimizerFields where
  gradients : List (List ℝ)
  applied_gradients : List (List ℝ)

/-- Translation of the gradient handling of `Tacotron.add_optimizer` (src lines
171-179): the gradients computed from the total loss — taken as an input here, since
automatic differentiation lies outside this embedding — are stored unclipped in the
`gradients` field (line 172), while `apply_gradients` receives the result of
`tf.clip_by_global_norm(gradients, 1.0)` (lines 173 and 178). -/
noncomputable def add_optimizer (computed_gradients : List (List ℝ)) : OptimizerFields :=
  ⟨computed_gradients, clip_by_global_norm 1 computed_gradients⟩

/-- C10: after `add_optimizer`, the `gradients` field holds the unclipped gradients
exactly as computed, while the parameter update applies the clipped set; clipping
never alters the stored field — even when the applied set is rescaled to norm 1, the
stored set keeps its original norm. -/
theorem stored_gradients_unclipped (gs : List (List ℝ)) :
    (add_optimizer gs).gradients = gs
    ∧ (add_optimizer gs).applied_gradients = clip_by_global_norm 1 gs
    ∧ (1 < global_norm gs →
        global_norm (add_optimizer gs).gradients = global_norm gs
        ∧ global_norm (add_optimizer gs).applied_gradients = 1) :=
  ⟨rfl, rfl, fun h => ⟨rfl, clip_norm_eq_one gs h⟩⟩

/-- Witness for C10 at the concrete gradient set `[[0, 5], [12, 0]]`, whose global
norm is 13: the stored gradients keep norm 13 while the applied set has norm 1. -/
theorem stored_gradients_unclipped_witness :
    global_norm (add_optimizer [[(0 : ℝ), 5], [12, 0]]).gradients
        = global_norm [[(0 : ℝ), 5], [12, 0]]
    ∧ global_norm (add_optimizer [[(0 : ℝ), 5], [12, 0]]).applied_gradients = 1 :=
  (stored_gradients_unclipped [[(0 : ℝ), 5], [12, 0]]).2.2 (by
    have h : global_norm_sq [[(0 : ℝ), 5], [12, 0]] = 169 := by norm_num [global_norm_sq]
    have h13 : global_norm [[(0 : ℝ), 5], [12, 0]] = 13 := by
      rw [global_norm, h, show (169 : ℝ) = 13 ^ 2 by norm_num,
        Real.sqrt_sq (by norm_num : (0 : ℝ) ≤ 13)]
    rw [h13]
    norm_num)

end Tacotron
